import Mathlib

/-!
Shallow embedding of the Git backend of the `vcs` package (`git.go`).

The Go code shells out to external processes and touches the filesystem; we
model every external interaction (VCS-type detection, the `.git` existence
check, `os.Getwd`, the `git config --get remote.origin.url` query, and the
`git fetch` / `git pull` invocations) as oracle fields of explicit
environment structures, and the process working directory as explicitly
threaded state.  `os.Chdir` is modelled as a total state update (its error
return is discarded by the Go code, and the spec declares the
working-directory save/restore primitives externally provided).
-/

namespace VcsGit

/-- The VCS types the package knows about (`Git`, `Hg`, `Svn`, `Bzr`). -/
inductive VcsType where
  | Git
  | Hg
  | Svn
  | Bzr
deriving DecidableEq, Repr

/-- Errors surfaced by the constructor: the two sentinel errors of the
package plus underlying filesystem/process errors carried as messages. -/
inductive VcsError where
  | ErrWrongVCS
  | ErrWrongRemote
  | sys (msg : String)
deriving DecidableEq, Repr

/-- The `GitRepo` handle: the `base` fields `remote` and `local`
(written through `setRemote` / `setLocalPath`) plus `RemoteLocation`.
The `Logger` field is irrelevant to every claim and omitted. -/
structure GitRepo where
  remote : String
  localPath : String
  RemoteLocation : String
deriving DecidableEq, Repr

/-- Whitespace as tested by Go's `unicode.IsSpace` on the Latin-1 range
(the range exercised by every claim): `'\t'`, `'\n'`, `'\v'`, `'\f'`,
`'\r'`, `' '`, U+0085 and U+00A0. -/
def isGoSpace (c : Char) : Bool :=
  c = ' ' || c = '\t' || c = '\n' || c = Char.ofNat 11 || c = Char.ofNat 12 ||
  c = '\r' || c = Char.ofNat 133 || c = Char.ofNat 160

/-- `strings.TrimSpace` on the character list: drop leading and trailing
whitespace. -/
def trimSpaceL (l : List Char) : List Char :=
  ((l.dropWhile isGoSpace).reverse.dropWhile isGoSpace).reverse

/-- `strings.TrimSpace`. -/
def trimSpace (s : String) : String :=
  ⟨trimSpaceL s.data⟩

/-- Oracle for the external interactions of `NewGitRepo`. -/
structure CtorEnv where
  /-- Result of `DetectVcsFromFS(local)`: a detected type, or an error. -/
  detect : Except String VcsType
  /-- Result of `r.CheckLocal()` (does `local + "/.git"` exist). -/
  checkLocal : Bool
  /-- `os.Getwd` failure: `some msg` when it fails, `none` when it
  returns the current directory. -/
  getwdErr : Option String
  /-- Combined output of `git config --get remote.origin.url`, or the
  command's error. -/
  configOut : Except String String
deriving Repr

/-- Outcome of a constructor call: the Go pair `(*GitRepo, error)` with a
possibly-nil pointer and possibly-nil error, plus the process working
directory after the call returns. -/
structure CtorResult where
  repo : Option GitRepo
  err : Option VcsError
  cwd : String
deriving DecidableEq, Repr

/-- `NewGitRepo(remote, local)` from `git.go`, started in working
directory `cwd0` with oracle `env`.

Control flow mirrors the source: a detection result of a VCS other than
Git fails with `ErrWrongVCS`; the reconciliation block runs only when
detection returned no error and `CheckLocal()` is true; inside it,
`os.Getwd` failure or `git config` failure is returned as-is; a supplied
remote differing from the trimmed configured one fails with
`ErrWrongRemote`; an empty supplied remote adopts a non-empty configured
one.  `os.Chdir(local)` followed by the deferred `os.Chdir(oldDir)` means
every exit from the block leaves the working directory at `oldDir = cwd0`;
outside the block the directory is never changed. -/
def NewGitRepo (remote localP cwd0 : String) (env : CtorEnv) : CtorResult :=
  match env.detect with
  | Except.ok t =>
    if t = VcsType.Git then
      if env.checkLocal then
        match env.getwdErr with
        | some e => ⟨none, some (VcsError.sys e), cwd0⟩
        | none =>
          match env.configOut with
          | Except.error e => ⟨none, some (VcsError.sys e), cwd0⟩
          | Except.ok out =>
            if remote ≠ "" ∧ trimSpace out ≠ remote then
              ⟨none, some VcsError.ErrWrongRemote, cwd0⟩
            else if remote = "" ∧ trimSpace out ≠ "" then
              ⟨some ⟨trimSpace out, localP, "origin"⟩, none, cwd0⟩
            else
              ⟨some ⟨remote, localP, "origin"⟩, none, cwd0⟩
      else
        ⟨some ⟨remote, localP, "origin"⟩, none, cwd0⟩
    else
      -- Found a VCS other than Git: report ErrWrongVCS.
      ⟨none, some VcsError.ErrWrongVCS, cwd0⟩
  | Except.error _ =>
    -- Detection errored: both guarded blocks are skipped and the handle
    -- is returned as initialized.
    ⟨some ⟨remote, localP, "origin"⟩, none, cwd0⟩

/-- Whitespace as matched by the regexp class used in the ref-list
patterns (Go regexp, RE2 Perl class): tab, newline, form feed, carriage
return, space.  The patterns use its complement. -/
def isReSpace (c : Char) : Bool :=
  c = '\t' || c = '\n' || c = Char.ofNat 12 || c = '\r' || c = ' '

/-- Split a character list at every `'\n'`, keeping empty segments: the
line structure that a multiline (`(?m)`) pattern is matched against. -/
def splitLines : List Char → List (List Char)
  | [] => [[]]
  | c :: rest =>
    if c = '\n' then
      [] :: splitLines rest
    else
      match splitLines rest with
      | [] => [[c]]
      | l :: ls => (c :: l) :: ls

/-- Leftmost match of the anchored pattern `needle(\S+)$` inside one line:
the first position where `needle` occurs and everything after it, up to
the end of the line, is nonempty and free of regexp whitespace; the
captured group is that suffix. -/
def matchTail (needle : List Char) : List Char → Option (List Char)
  | [] => none
  | c :: rest =>
    if needle.isPrefixOf (c :: rest) then
      let suffix := (c :: rest).drop needle.length
      if suffix ≠ [] ∧ suffix.all (fun d => !(isReSpace d)) then
        some suffix
      else
        matchTail needle rest
    else
      matchTail needle rest

/-- Modelled from the spec: the `base.referenceList` helper is not part of
the source excerpt; per §4.5 it applies the given pattern to the raw ref
dump and returns the ordered sequence of captured names.  Both call sites
in `git.go` instantiate the pattern family `(?m-s)(?:NAME)/(\S+)$`, so the
model takes `NAME` and implements exactly that family: per line of the
dump, the leftmost occurrence of `NAME ++ "/"` whose suffix runs
whitespace-free to the end of the line contributes that suffix, in line
order. -/
def referenceList (content : String) (name : String) : List String :=
  (splitLines content.data).filterMap
    (fun l => (matchTail (name.data ++ ['/']) l).map (fun cs => (⟨cs⟩ : String)))

/-- `Branches` from `git.go`: run `git show-ref` (its outcome supplied as
the `showRef` oracle); on failure return the empty list with the error,
otherwise extract with the pattern `(?m-s)(?:RemoteLocation)/(\S+)$`. -/
def Branches (s : GitRepo) (showRef : Except String String) :
    List String × Option String :=
  match showRef with
  | Except.error e => ([], some e)
  | Except.ok out => (referenceList out s.RemoteLocation, none)

/-- `Tags` from `git.go`: run `git show-ref`; on failure return the empty
list with the error, otherwise extract with `(?m-s)(?:tags)/(\S+)$`. -/
def Tags (s : GitRepo) (showRef : Except String String) :
    List String × Option String :=
  match showRef with
  | Except.error e => ([], some e)
  | Except.ok out => (referenceList out "tags", none)

/-- Oracle for the two commands `Update` can run. -/
structure UpdateEnv where
  /-- Outcome of `git fetch <RemoteLocation>` (combined output or error). -/
  fetchResult : Except String String
  /-- Outcome of `git pull`. -/
  pullResult : Except String String
deriving Repr

/-- `Update` from `git.go`: run `git fetch <RemoteLocation>`; on error
return it at once, otherwise run `git pull` and return its outcome.  The
second component records the argument lists of the commands actually
invoked, in invocation order. -/
def Update (s : GitRepo) (env : UpdateEnv) :
    Option String × List (List String) :=
  let fetchCmd := ["git", "fetch", s.RemoteLocation]
  match env.fetchResult with
  | Except.error e => (some e, [fetchCmd])
  | Except.ok _ =>
    match env.pullResult with
    | Except.error e => (some e, [fetchCmd, ["git", "pull"]])
    | Except.ok _ => (none, [fetchCmd, ["git", "pull"]])

/-- C1: when no remote is supplied and the local Git checkout has a
non-empty configured remote `R` (trimmed `git config` output), construction
succeeds and the handle's remote is `R`. -/
theorem newGitRepo_adopts_configured_remote
    (localP cwd0 out R : String) (hR : trimSpace out = R) (hne : R ≠ "") :
    NewGitRepo "" localP cwd0
        ⟨Except.ok VcsType.Git, true, none, Except.ok out⟩ =
      ⟨some ⟨R, localP, "origin"⟩, none, cwd0⟩ := by
  subst hR
  simp [NewGitRepo, hne]

/-- Witness for C1 at a concrete configured remote. -/
theorem newGitRepo_adopts_configured_remote_witness :
    NewGitRepo "" "/p" "/d"
        ⟨Except.ok VcsType.Git, true, none,
          Except.ok "https://example.com/r.git\n"⟩ =
      ⟨some ⟨"https://example.com/r.git", "/p", "origin"⟩, none, "/d"⟩ :=
  newGitRepo_adopts_configured_remote "/p" "/d" "https://example.com/r.git\n"
    "https://example.com/r.git" (by decide) (by decide)

/-- C2: when a non-empty remote `R1` is supplied and the checkout's
configured remote (trimmed) differs from it, construction fails with
`ErrWrongRemote` and returns no handle. -/
theorem newGitRepo_wrong_remote_error
    (localP cwd0 out R1 : String) (h1 : R1 ≠ "") (h2 : trimSpace out ≠ R1) :
    NewGitRepo R1 localP cwd0
        ⟨Except.ok VcsType.Git, true, none, Except.ok out⟩ =
      ⟨none, some VcsError.ErrWrongRemote, cwd0⟩ := by
  simp [NewGitRepo, h1, h2]

/-- Witness for C2 at concrete differing remotes. -/
theorem newGitRepo_wrong_remote_error_witness :
    NewGitRepo "https://a" "/p" "/d"
        ⟨Except.ok VcsType.Git, true, none, Except.ok "https://b\n"⟩ =
      ⟨none, some VcsError.ErrWrongRemote, "/d"⟩ :=
  newGitRepo_wrong_remote_error "/p" "/d" "https://b\n" "https://a"
    (by decide) (by decide)

/-- C3: on the ref dump with lines `abc123 refs/remotes/origin/main` and
`def456 refs/remotes/origin/feature/x`, a handle whose remote-tracking
name is `origin` lists exactly the branches `main` and `feature/x`, in
that order. -/
theorem branches_origin_example (r l : String) :
    Branches ⟨r, l, "origin"⟩
        (Except.ok
          "abc123 refs/remotes/origin/main\ndef456 refs/remotes/origin/feature/x") =
      (["main", "feature/x"], none) := rfl

/-- C4: `Tags` extracts, line by line and in order, the capture of the
`tags/(\S+)$` pattern from the ref dump; on the dump
`abc123 refs/tags/v1.0.0` it returns exactly `["v1.0.0"]`. -/
theorem tags_segment_extraction :
    (∀ (s : GitRepo) (out : String),
        Tags s (Except.ok out) =
          ((splitLines out.data).filterMap
            (fun l => (matchTail ("tags/".data) l).map
              (fun cs => (⟨cs⟩ : String))), none)) ∧
    (∀ r l rl : String,
        Tags ⟨r, l, rl⟩ (Except.ok "abc123 refs/tags/v1.0.0") =
          (["v1.0.0"], none)) :=
  ⟨fun _ _ => rfl, fun _ _ _ => rfl⟩

/-- C5: `Update` always invokes fetch against the tracked remote name
first; when fetch fails, pull is never invoked and fetch's error is
returned; when fetch succeeds and pull fails, pull's error is returned. -/
theorem update_fetch_then_pull (s : GitRepo) (env : UpdateEnv) :
    ((Update s env).2.head? = some ["git", "fetch", s.RemoteLocation]) ∧
    (∀ e, env.fetchResult = Except.error e →
        Update s env = (some e, [["git", "fetch", s.RemoteLocation]])) ∧
    (∀ o e, env.fetchResult = Except.ok o → env.pullResult = Except.error e →
        Update s env =
          (some e, [["git", "fetch", s.RemoteLocation], ["git", "pull"]])) := by
  obtain ⟨f, p⟩ := env
  refine ⟨?_, ?_, ?_⟩
  · cases f <;> cases p <;> rfl
  · rintro e rfl
    rfl
  · rintro o e rfl rfl
    rfl

/-- Witness for C5: a failing fetch returns its error with pull never
invoked. -/
theorem update_fetch_then_pull_witness :
    Update ⟨"r", "l", "origin"⟩ ⟨Except.error "netfail", Except.ok ""⟩ =
      (some "netfail", [["git", "fetch", "origin"]]) :=
  (update_fetch_then_pull ⟨"r", "l", "origin"⟩
    ⟨Except.error "netfail", Except.ok ""⟩).2.1 "netfail" rfl

/-- C6: construction either fully succeeds or returns no handle (the
error is `none` exactly when a handle is returned), and any `os.Getwd` or
`git config` failure arising in the reconciliation block is returned to
the caller as-is. -/
theorem newGitRepo_error_propagation
    (remote localP cwd0 : String) (env : CtorEnv) :
    ((NewGitRepo remote localP cwd0 env).err = none ↔
      (NewGitRepo remote localP cwd0 env).repo ≠ none) ∧
    (∀ e, env.detect = Except.ok VcsType.Git → env.checkLocal = true →
        env.getwdErr = some e →
        NewGitRepo remote localP cwd0 env = ⟨none, some (VcsError.sys e), cwd0⟩) ∧
    (∀ e, env.detect = Except.ok VcsType.Git → env.checkLocal = true →
        env.getwdErr = none → env.configOut = Except.error e →
        NewGitRepo remote localP cwd0 env = ⟨none, some (VcsError.sys e), cwd0⟩) := by
  obtain ⟨d, cl, g, cfg⟩ := env
  refine ⟨?_, ?_, ?_⟩
  · rcases d with m | t
    · simp [NewGitRepo]
    · by_cases ht : t = VcsType.Git
      · subst ht
        cases cl
        · simp [NewGitRepo]
        · rcases g with _ | e
          · rcases cfg with e2 | out
            · simp [NewGitRepo]
            · by_cases hc1 : remote ≠ "" ∧ trimSpace out ≠ remote
              · simp [NewGitRepo, hc1]
              · by_cases hc2 : remote = "" ∧ trimSpace out ≠ ""
                · simp [NewGitRepo, hc1, hc2]
                · simp [NewGitRepo, hc1, hc2]
          · simp [NewGitRepo]
      · simp [NewGitRepo, ht]
  · rintro e rfl rfl rfl
    rfl
  · rintro e rfl rfl rfl rfl
    rfl

/-- Witness for C6: a `git config` failure is returned as-is. -/
theorem newGitRepo_error_propagation_witness :
    NewGitRepo "r" "/p" "/d"
        ⟨Except.ok VcsType.Git, true, none, Except.error "exit status 1"⟩ =
      ⟨none, some (VcsError.sys "exit status 1"), "/d"⟩ :=
  (newGitRepo_error_propagation "r" "/p" "/d"
      ⟨Except.ok VcsType.Git, true, none, Except.error "exit status 1"⟩).2.2
    "exit status 1" rfl rfl rfl rfl

/-- C7: on every exit path of the constructor, the process working
directory after the call equals the directory in effect before it. -/
theorem newGitRepo_restores_cwd (remote localP cwd0 : String) (env : CtorEnv) :
    (NewGitRepo remote localP cwd0 env).cwd = cwd0 := by
  obtain ⟨d, cl, g, cfg⟩ := env
  rcases d with m | t
  · rfl
  · by_cases ht : t = VcsType.Git
    · subst ht
      cases cl
      · rfl
      · rcases g with _ | e
        · rcases cfg with e2 | out
          · rfl
          · by_cases hc1 : remote ≠ "" ∧ trimSpace out ≠ remote
            · simp [NewGitRepo, hc1]
            · by_cases hc2 : remote = "" ∧ trimSpace out ≠ ""
              · simp [NewGitRepo, hc1, hc2]
              · simp [NewGitRepo, hc1, hc2]
        · rfl
    · simp [NewGitRepo, ht]

/-- C8: when filesystem detection succeeds and reports a VCS other than
Git, construction fails with `ErrWrongVCS` and returns no handle. -/
theorem newGitRepo_wrong_vcs_error
    (remote localP cwd0 : String) (t : VcsType) (cl : Bool)
    (g : Option String) (cfg : Except String String) (ht : t ≠ VcsType.Git) :
    NewGitRepo remote localP cwd0 ⟨Except.ok t, cl, g, cfg⟩ =
      ⟨none, some VcsError.ErrWrongVCS, cwd0⟩ := by
  simp [NewGitRepo, ht]

/-- Witness for C8 with a detected Mercurial checkout. -/
theorem newGitRepo_wrong_vcs_error_witness :
    NewGitRepo "r" "/p" "/d"
        ⟨Except.ok VcsType.Hg, true, none, Except.ok ""⟩ =
      ⟨none, some VcsError.ErrWrongVCS, "/d"⟩ :=
  newGitRepo_wrong_vcs_error "r" "/p" "/d" VcsType.Hg true none
    (Except.ok "") (by decide)

/-- C9: the wrong-remote comparison is made against the whitespace-trimmed
`git config` output: a non-empty supplied remote equal to the trimmed
configured value makes construction succeed with that remote in the
handle. -/
theorem newGitRepo_trimmed_remote_match
    (localP cwd0 out R : String) (h1 : R ≠ "") (h2 : trimSpace out = R) :
    NewGitRepo R localP cwd0
        ⟨Except.ok VcsType.Git, true, none, Except.ok out⟩ =
      ⟨some ⟨R, localP, "origin"⟩, none, cwd0⟩ := by
  subst h2
  simp [NewGitRepo, h1]

/-- Witness for C9: surrounding whitespace in the configured value does
not trigger a wrong-remote failure. -/
theorem newGitRepo_trimmed_remote_match_witness :
    NewGitRepo "https://a" "/p" "/d"
        ⟨Except.ok VcsType.Git, true, none, Except.ok "  https://a \n"⟩ =
      ⟨some ⟨"https://a", "/p", "origin"⟩, none, "/d"⟩ :=
  newGitRepo_trimmed_remote_match "/p" "/d" "  https://a \n" "https://a"
    (by decide) (by decide)

/-- C10: when the local directory is a Git checkout but the configured
remote query fails, the constructor returns that error and no handle —
for every supplied remote, including the empty one. -/
theorem newGitRepo_config_query_error (remote localP cwd0 e : String) :
    NewGitRepo remote localP cwd0
        ⟨Except.ok VcsType.Git, true, none, Except.error e⟩ =
      ⟨none, some (VcsError.sys e), cwd0⟩ := rfl

end VcsGit
